import Mathlib

/-!
Shallow embedding of the ProECG streaming pipeline (src/app.py): the sample
buffer, adaptive peak detector, peak history queues, rate estimator, ingestion
step, and session lifecycle, together with theorems checking the specified
behaviour. Samples, timestamps and statistics are modelled over ℚ; the
published heart rate over ℤ (Python int, 0 meaning unknown).
-/

/-- Python deque append with a maxlen bound: add at the right, evict from the
left when capacity is exceeded. -/
def pushDeque {α : Type} (maxlen : Nat) (q : List α) (x : α) : List α :=
  let q1 := q ++ [x]
  if maxlen < q1.length then q1.drop (q1.length - maxlen) else q1

/-- Python trailing slice `l[-n:]`: the last `n` elements (all of `l` when it is
shorter than `n`). -/
def lastN {α : Type} (n : Nat) (l : List α) : List α :=
  l.drop (l.length - n)

/-- Python negative indexing `l[-k]` (total, with default 0; only used where the
source guarantees `k ≤ l.length`). -/
def fromEnd (l : List ℚ) (k : Nat) : ℚ :=
  l.getD (l.length - k) 0

/-- Model of `np.mean` on a list of rationals (empty list gives 0 by rational
division-by-zero convention; the source never takes the mean of an empty list). -/
def mean (l : List ℚ) : ℚ := l.sum / (l.length : ℚ)

/-- The square of `np.std` (population variance): mean of squared deviations.
`np.std recent_data` itself is the square root of this quantity. -/
def variance (l : List ℚ) : ℚ :=
  ((l.map fun x => (x - mean l) ^ 2).sum) / (l.length : ℚ)

/-- The statistical window `recent_data = ecg_data[-20:] if len(ecg_data) >= 20
else ecg_data` (src/app.py line 40). -/
def recentData (l : List ℚ) : List ℚ :=
  if 20 ≤ l.length then lastN 20 l else l

/-- Decidable test for `d > Real.sqrt c` when `0 ≤ c`, namely `0 < d ∧ c < d ^ 2`.
`np.std` is the square root of `variance`, so the source comparisons
`x > mean + 2.5 * std` and `x - mean > 1.5 * std` are encoded by this squared
test; `gtSqrtB_iff_sqrt` proves the encoding equivalent to the square-root form. -/
def gtSqrtB (d c : ℚ) : Bool := decide (0 < d) && decide (c < d ^ 2)

/-- The peak-qualification condition of `detect_peaks_and_calculate_hr`
(src/app.py lines 53–55): `ecg_data[-2]` strictly above both neighbours,
above `threshold = mean_val + 2.5 * std_val`, and
`ecg_data[-2] - mean_val > min_peak_height = 1.5 * std_val`, with `mean_val`
and `std_val` taken over `recent_data`. -/
def peakCandidateOK (l : List ℚ) : Bool :=
  let r := recentData l
  let m := mean r
  let v := variance r
  let x := fromEnd l 2
  decide (fromEnd l 3 < x) && decide (fromEnd l 1 < x) &&
    gtSqrtB (x - m) ((5/2 : ℚ) ^ 2 * v) && gtSqrtB (x - m) ((3/2 : ℚ) ^ 2 * v)

/-- The mutable module-level state of src/app.py (lines 13–21):
`ecg_data`, `heart_rate` (0 = unknown), the two peak deques, the monitoring
flag, and whether a serial connection object is currently open. -/
structure AppState where
  ecg_data : List ℚ
  heart_rate : ℤ
  last_peaks : List ℚ
  peak_values : List ℚ
  is_monitoring : Bool
  serial_open : Bool
  deriving DecidableEq

/-- Python `int()` on a rational: truncation toward zero. -/
def pyInt (q : ℚ) : ℤ := if 0 ≤ q then ⌊q⌋ else ⌈q⌉

/-- Consecutive differences of successive peak timestamps (oldest to newest),
keeping only those in [0.3 s, 2.0 s] (src/app.py lines 63–69). -/
def retainedIntervals (peaks : List ℚ) : List ℚ :=
  ((peaks.zip peaks.tail).map fun p => p.2 - p.1).filter
    fun d => decide (3/10 ≤ d ∧ d ≤ 2)

/-- The rate-estimator step (src/app.py lines 60–78), run on the timestamp queue
after the new peak has been appended: requires at least two timestamps, filters
intervals, averages, converts with `int(60 / avg)`, and publishes only within
the sanity range [30, 200]; otherwise keeps the previous `heart_rate`. -/
def updateHR (hr : ℤ) (peaks : List ℚ) : ℤ :=
  if 2 ≤ peaks.length then
    if retainedIntervals peaks ≠ [] then
      if 30 ≤ pyInt (60 / mean (retainedIntervals peaks))
          ∧ pyInt (60 / mean (retainedIntervals peaks)) ≤ 200
      then pyInt (60 / mean (retainedIntervals peaks)) else hr
    else hr
  else hr

/-- The body of the qualification branch (src/app.py lines 56–78): append the
magnitude `ecg_data[-2]` to `peak_values`, append `timestamp - 0.01` to
`last_peaks`, then recompute the heart rate from the updated timestamp queue. -/
def recordPeakAndHR (t : ℚ) (s : AppState) : AppState :=
  let lp := pushDeque 10 s.last_peaks (t - 1/100)
  { s with peak_values := pushDeque 30 s.peak_values (fromEnd s.ecg_data 2),
           last_peaks := lp,
           heart_rate := updateHR s.heart_rate lp }

/-- The function `detect_peaks_and_calculate_hr(new_value, timestamp)`
(src/app.py lines 28–80). The `new_value` argument is unused by the source body (it reads the
buffer instead), so it is not a parameter here; `t` is the `timestamp`
argument. -/
def detect_peaks_and_calculate_hr (t : ℚ) (s : AppState) : AppState :=
  if s.ecg_data.length < 10 then s
  else if 3 ≤ s.ecg_data.length then
    if peakCandidateOK s.ecg_data then recordPeakAndHR t s else s
  else s

/-- Capacity `max_data_points = 100` (src/app.py line 16). -/
def max_data_points : Nat := 100

/-- The buffer update inside `read_serial_data` (src/app.py lines 96–99):
append, then truncate to the trailing `max_data_points` window when the length
exceeds it. -/
def appendSample (b : List ℚ) (v : ℚ) : List ℚ :=
  let b1 := b ++ [v]
  if max_data_points < b1.length then lastN max_data_points b1 else b1

/-- One successfully parsed sample processed under the lock (src/app.py lines
95–102): buffer append/truncate, then peak detection and heart-rate update,
passing the new sample's own arrival timestamp `t`. -/
def process_sample (v : ℚ) (t : ℚ) (s : AppState) : AppState :=
  detect_peaks_and_calculate_hr t { s with ecg_data := appendSample s.ecg_data v }

/-- One received line (src/app.py lines 90–105). `float(line)` is modelled as
an `Option ℚ`: `none` is a line that raises `ValueError`, which the source
catches and ignores (`pass`), leaving every piece of state untouched. -/
def ingest_line (parsed : Option ℚ) (t : ℚ) (s : AppState) : AppState :=
  match parsed with
  | none => s
  | some v => process_sample v t s

/-- The `except` branch of `read_serial_data` (src/app.py lines 107–110) for an
I/O-level read failure: print, set `is_monitoring = False`, break out of the
loop. The serial connection object is not closed and no other state is
touched. -/
def on_read_failure (s : AppState) : AppState :=
  { s with is_monitoring := false }

/-- A successful `/connect` (src/app.py lines 119–143): stop and close any
existing connection, open the new port, reset `ecg_data` to `[]`, set
`is_monitoring = True` and start the reader thread. `heart_rate`, `last_peaks`
and `peak_values` are not touched by `connect`. -/
def connect_success (s : AppState) : AppState :=
  { s with ecg_data := [], is_monitoring := true, serial_open := true }

/-- The `/disconnect` route with an open connection (src/app.py lines 152–157). -/
def disconnect_active (s : AppState) : AppState :=
  { s with is_monitoring := false, serial_open := false }

/-- The `/get_heart_rate` route (src/app.py lines 167–171): returns the current
`heart_rate` value. -/
def get_heart_rate (s : AppState) : ℤ := s.heart_rate

/-- The module-load state (src/app.py lines 13–21): empty buffer and queues,
`heart_rate = 0`, not monitoring, no serial connection. -/
def initialState : AppState :=
  { ecg_data := [], heart_rate := 0, last_peaks := [], peak_values := [],
    is_monitoring := false, serial_open := false }

/-- Process a list of (value, arrival-timestamp) pairs through the ingestion
step, in order. -/
def processAll (inputs : List (ℚ × ℚ)) (s : AppState) : AppState :=
  inputs.foldl (fun st p => process_sample p.1 p.2 st) s

/-- The externally triggered operations that mutate the shared state. -/
inductive Op where
  | connect
  | ingest (parsed : Option ℚ) (t : ℚ)
  | readFailure
  | disconnect

/-- Effect of one operation on the shared state. -/
def step : Op → AppState → AppState
  | Op.connect, s => connect_success s
  | Op.ingest p t, s => ingest_line p t s
  | Op.readFailure, s => on_read_failure s
  | Op.disconnect, s => disconnect_active s

/-- Run a list of operations from the module-load state. -/
def run (ops : List Op) : AppState :=
  ops.foldl (fun s op => step op s) initialState

/-- The concrete run used to exhibit the timestamp-correction behaviour: nine flat
samples, a spike of magnitude 10 arriving at t = 10, and one more flat sample
arriving at t = 11 (the sample whose arrival confirms the spike as a peak). -/
def cxInputs : List (ℚ × ℚ) :=
  [(0, 1), (0, 2), (0, 3), (0, 4), (0, 5), (0, 6), (0, 7), (0, 8), (0, 9),
   (10, 10), (0, 11)]

/-- A monitoring state whose buffer already holds ten samples ending in a spike. -/
def tenState : AppState :=
  { ecg_data := [0, 0, 0, 0, 0, 0, 0, 0, 0, 10], heart_rate := 0, last_peaks := [],
    peak_values := [], is_monitoring := true, serial_open := true }

/-- A monitoring state whose buffer holds eleven samples with a confirmed spike in
second-from-last position of index 9. -/
def elevenState : AppState :=
  { ecg_data := [0, 0, 0, 0, 0, 0, 0, 0, 0, 10, 0], heart_rate := 0, last_peaks := [],
    peak_values := [], is_monitoring := true, serial_open := true }

/-- An active-session state with a published estimate, used as a concrete input to
the failure and lifecycle operations. -/
def failState : AppState :=
  { ecg_data := [1, 2], heart_rate := 80, last_peaks := [5], peak_values := [7],
    is_monitoring := true, serial_open := true }

/-! ### Helper lemmas -/

theorem variance_nonneg (l : List ℚ) : 0 ≤ variance l := by
  unfold variance
  apply div_nonneg
  · apply List.sum_nonneg
    intro x hx
    obtain ⟨y, _, rfl⟩ := List.mem_map.mp hx
    positivity
  · exact Nat.cast_nonneg _

theorem gtSqrtB_iff_sqrt (d c : ℚ) :
    gtSqrtB d c = true ↔ Real.sqrt (c : ℝ) < (d : ℝ) := by
  unfold gtSqrtB
  rw [Bool.and_eq_true, decide_eq_true_eq, decide_eq_true_eq]
  constructor
  · rintro ⟨hd, hcd⟩
    have hdR : (0 : ℝ) < (d : ℝ) := by exact_mod_cast hd
    have hcdR : (c : ℝ) < (d : ℝ) ^ 2 := by exact_mod_cast hcd
    exact (Real.sqrt_lt' hdR).mpr hcdR
  · intro h
    have hdR : (0 : ℝ) < (d : ℝ) := lt_of_le_of_lt (Real.sqrt_nonneg _) h
    have hcdR : (c : ℝ) < (d : ℝ) ^ 2 := (Real.sqrt_lt' hdR).mp h
    exact ⟨by exact_mod_cast hdR, by exact_mod_cast hcdR⟩

theorem peakCandidateOK_iff (l : List ℚ) :
    peakCandidateOK l = true ↔
      fromEnd l 3 < fromEnd l 2 ∧ fromEnd l 1 < fromEnd l 2 ∧
        (mean (recentData l) : ℝ) + 2.5 * Real.sqrt (variance (recentData l) : ℝ)
            < (fromEnd l 2 : ℝ) ∧
        1.5 * Real.sqrt (variance (recentData l) : ℝ)
            < (fromEnd l 2 : ℝ) - (mean (recentData l) : ℝ) := by
  unfold peakCandidateOK
  simp only [Bool.and_eq_true, decide_eq_true_eq]
  rw [gtSqrtB_iff_sqrt, gtSqrtB_iff_sqrt]
  have e1 : (((5/2 : ℚ) ^ 2 * variance (recentData l) : ℚ) : ℝ)
      = (5/2 : ℝ) ^ 2 * (variance (recentData l) : ℝ) := by push_cast; ring
  have e2 : (((3/2 : ℚ) ^ 2 * variance (recentData l) : ℚ) : ℝ)
      = (3/2 : ℝ) ^ 2 * (variance (recentData l) : ℝ) := by push_cast; ring
  have e3 : ((fromEnd l 2 - mean (recentData l) : ℚ) : ℝ)
      = (fromEnd l 2 : ℝ) - (mean (recentData l) : ℝ) := by push_cast; ring
  rw [e1, e2, e3, Real.sqrt_mul (by positivity) _, Real.sqrt_mul (by positivity) _,
      Real.sqrt_sq (by norm_num : (0:ℝ) ≤ 5/2), Real.sqrt_sq (by norm_num : (0:ℝ) ≤ 3/2)]
  constructor
  · rintro ⟨⟨⟨h1, h2⟩, h3⟩, h4⟩
    exact ⟨h1, h2, by linarith, by linarith⟩
  · rintro ⟨h1, h2, h3, h4⟩
    exact ⟨⟨⟨h1, h2⟩, by linarith⟩, by linarith⟩

theorem pyInt_eq_floor (q : ℚ) (h : 0 ≤ q) : pyInt q = ⌊q⌋ := if_pos h

theorem mean_retained_nonneg (peaks : List ℚ) :
    0 ≤ mean (retainedIntervals peaks) := by
  unfold mean
  apply div_nonneg _ (Nat.cast_nonneg _)
  apply List.sum_nonneg
  intro x hx
  unfold retainedIntervals at hx
  have h := List.of_mem_filter hx
  rw [decide_eq_true_eq] at h
  linarith [h.1]

theorem detect_preserves_ecg (t : ℚ) (s : AppState) :
    (detect_peaks_and_calculate_hr t s).ecg_data = s.ecg_data := by
  unfold detect_peaks_and_calculate_hr recordPeakAndHR
  split
  · rfl
  · split
    · split <;> rfl
    · rfl

theorem process_sample_ecg (v t : ℚ) (s : AppState) :
    (process_sample v t s).ecg_data = appendSample s.ecg_data v := by
  unfold process_sample
  rw [detect_preserves_ecg]


theorem appendSample_short (b : List ℚ) (v : ℚ) (h : b.length < max_data_points) :
    appendSample b v = b ++ [v] := by
  unfold appendSample
  rw [if_neg (by simp only [List.length_append, List.length_singleton]; omega)]

theorem processAll_short_no_peaks (inputs : List (ℚ × ℚ)) : ∀ s : AppState,
    s.ecg_data.length + inputs.length ≤ 9 →
    (processAll inputs s).last_peaks = s.last_peaks := by
  induction inputs with
  | nil => intro s _; rfl
  | cons p rest ih =>
      intro s h
      have hlen : s.ecg_data.length < max_data_points := by
        unfold max_data_points; simp only [List.length_cons] at h; omega
      have hb : (appendSample s.ecg_data p.1).length = s.ecg_data.length + 1 := by
        rw [appendSample_short _ _ hlen]
        simp [List.length_append]
      have hstep : process_sample p.1 p.2 s
          = { s with ecg_data := appendSample s.ecg_data p.1 } := by
        unfold process_sample detect_peaks_and_calculate_hr
        rw [if_pos]
        show (appendSample s.ecg_data p.1).length < 10
        simp only [List.length_cons] at h
        omega
      show (processAll rest (process_sample p.1 p.2 s)).last_peaks = s.last_peaks
      rw [hstep, ih { s with ecg_data := appendSample s.ecg_data p.1 }
        (by simp only [hb, List.length_cons] at h ⊢; omega)]

/-- C1: Assuming the buffer holds at least 3 samples and at least 10 samples have
been accumulated (otherwise `detect_peaks_and_calculate_hr` is a no-op), the
second-from-last buffered sample x is flagged as a peak iff x is strictly greater
than both immediate neighbours, x > T and x − μ > M, where μ and σ are the mean
and standard deviation of the last min(20, length) buffered samples (newest
included), T = μ + 2.5σ and M = 1.5σ; and no peak is ever flagged while fewer
than 10 samples have ever been recorded in the session. -/
theorem C1_peak_detection_rule :
    (∀ (t : ℚ) (s : AppState), s.ecg_data.length < 10 →
        detect_peaks_and_calculate_hr t s = s)
    ∧ (∀ (t : ℚ) (s : AppState), 10 ≤ s.ecg_data.length →
        detect_peaks_and_calculate_hr t s =
          if peakCandidateOK s.ecg_data then recordPeakAndHR t s else s)
    ∧ (∀ l : List ℚ, peakCandidateOK l = true ↔
        fromEnd l 3 < fromEnd l 2 ∧ fromEnd l 1 < fromEnd l 2 ∧
          (mean (recentData l) : ℝ) + 2.5 * Real.sqrt (variance (recentData l) : ℝ)
              < (fromEnd l 2 : ℝ) ∧
          1.5 * Real.sqrt (variance (recentData l) : ℝ)
              < (fromEnd l 2 : ℝ) - (mean (recentData l) : ℝ))
    ∧ (∀ (inputs : List (ℚ × ℚ)) (s : AppState), inputs.length ≤ 9 →
        (processAll inputs (connect_success s)).last_peaks = s.last_peaks) := by
  refine ⟨?_, ?_, peakCandidateOK_iff, ?_⟩
  · intro t s h
    unfold detect_peaks_and_calculate_hr
    rw [if_pos h]
  · intro t s h
    unfold detect_peaks_and_calculate_hr
    rw [if_neg (by omega), if_pos (by omega)]
  · intro inputs s h
    have h0 : (connect_success s).ecg_data.length = 0 := rfl
    exact processAll_short_no_peaks inputs (connect_success s) (by omega)

theorem C1_peak_detection_rule_witness :
    detect_peaks_and_calculate_hr 5 initialState = initialState
    ∧ detect_peaks_and_calculate_hr 11 elevenState =
        (if peakCandidateOK elevenState.ecg_data then recordPeakAndHR 11 elevenState
         else elevenState)
    ∧ (processAll [((7 : ℚ), (1 : ℚ)), (9, 2)] (connect_success failState)).last_peaks
        = failState.last_peaks :=
  ⟨C1_peak_detection_rule.1 5 initialState (by decide),
   C1_peak_detection_rule.2.1 11 elevenState (by decide),
   C1_peak_detection_rule.2.2.2 [((7 : ℚ), (1 : ℚ)), (9, 2)] failState (by decide)⟩

/-- C2: On an ingestion step that records a new peak, with at least 2 timestamps
in the queue after the append, the estimator takes consecutive differences of
successive timestamps (oldest to newest), retains only those in [0.3 s, 2.0 s],
and publishes floor(60 / mean(retained)) when the retained set is non-empty and
that value lies in [30, 200]; in every other case (fewer than 2 timestamps, empty
retained set, or out-of-range result) the previous estimate is kept unchanged. -/
theorem C2_rate_estimator :
    (∀ (hr : ℤ) (peaks : List ℚ), peaks.length < 2 → updateHR hr peaks = hr)
    ∧ (∀ (hr : ℤ) (peaks : List ℚ), retainedIntervals peaks = [] →
        updateHR hr peaks = hr)
    ∧ (∀ (hr : ℤ) (peaks : List ℚ), 2 ≤ peaks.length → retainedIntervals peaks ≠ [] →
        updateHR hr peaks =
          if 30 ≤ ⌊(60 : ℚ) / mean (retainedIntervals peaks)⌋ ∧
              ⌊(60 : ℚ) / mean (retainedIntervals peaks)⌋ ≤ 200
          then ⌊(60 : ℚ) / mean (retainedIntervals peaks)⌋ else hr)
    ∧ (∀ (t : ℚ) (s : AppState),
        (detect_peaks_and_calculate_hr t s).heart_rate =
          if 10 ≤ s.ecg_data.length ∧ peakCandidateOK s.ecg_data = true
          then updateHR s.heart_rate (pushDeque 10 s.last_peaks (t - 1/100))
          else s.heart_rate) := by
  refine ⟨?_, ?_, ?_, ?_⟩
  · intro hr peaks h
    unfold updateHR
    rw [if_neg (by omega)]
  · intro hr peaks h
    unfold updateHR
    split
    · rw [if_neg (by simp [h])]
    · rfl
  · intro hr peaks h2 hne
    unfold updateHR
    rw [if_pos h2, if_pos hne,
        pyInt_eq_floor _ (div_nonneg (by norm_num) (mean_retained_nonneg peaks))]
  · intro t s
    unfold detect_peaks_and_calculate_hr
    by_cases h10 : s.ecg_data.length < 10
    · rw [if_pos h10, if_neg (fun hc => absurd hc.1 (by omega))]
    · rw [if_neg h10, if_pos (by omega)]
      by_cases hp : peakCandidateOK s.ecg_data = true
      · rw [if_pos hp, if_pos ⟨by omega, hp⟩]
        rfl
      · rw [if_neg hp, if_neg (fun hc => hp hc.2)]

theorem C2_rate_estimator_witness :
    updateHR 37 [(5 : ℚ)] = 37
    ∧ updateHR 42 [0, 1/10] = 42
    ∧ updateHR 0 [0, 4/5] =
        (if 30 ≤ ⌊(60 : ℚ) / mean (retainedIntervals [0, 4/5])⌋ ∧
            ⌊(60 : ℚ) / mean (retainedIntervals [0, 4/5])⌋ ≤ 200
         then ⌊(60 : ℚ) / mean (retainedIntervals [0, 4/5])⌋ else 0) :=
  ⟨C2_rate_estimator.1 37 [5] (by decide),
   C2_rate_estimator.2.1 42 [0, 1/10] (by norm_num [retainedIntervals]),
   C2_rate_estimator.2.2.1 0 [0, 4/5] (by decide) (by norm_num [retainedIntervals])⟩

/-- C3 (code bug): the spec requires `connect` to clear the Sample Buffer, the
Peak History and the Heart Rate Estimate, but the source resets only `ecg_data`
(src/app.py line 135); `heart_rate`, `last_peaks` and `peak_values` survive the
reconnection. Evaluated at a state with a published estimate of 75 and non-empty
peak history. -/
theorem C3_connect_reset_bug :
    (connect_success (AppState.mk [1, 2, 3] 75 [10, 54/5] [6] false true)).ecg_data = []
    ∧ (connect_success (AppState.mk [1, 2, 3] 75 [10, 54/5] [6] false true)).heart_rate = 75
    ∧ (connect_success (AppState.mk [1, 2, 3] 75 [10, 54/5] [6] false true)).last_peaks
        = [10, 54/5]
    ∧ (connect_success (AppState.mk [1, 2, 3] 75 [10, 54/5] [6] false true)).peak_values
        = [6] :=
  ⟨rfl, rfl, rfl, rfl⟩

/-- C6 counterexample: from an active session (connection open, monitoring), a
transport read failure ends monitoring but does NOT release the transport: the
serial connection stays open, refuting the claim that the failure handler
releases it. -/
theorem C6_counterexample :
    failState.serial_open = true ∧ failState.is_monitoring = true
    ∧ (on_read_failure failState).is_monitoring = false
    ∧ (on_read_failure failState).serial_open = true :=
  ⟨rfl, rfl, rfl, rfl⟩

/-- C6 (amended): on an I/O-level read failure during an active session, the
ingestion loop ends monitoring (the loop exits), but the transport is not
released — the serial connection object remains open until an explicit
disconnect or reconnect — and the Sample Buffer, Heart Rate Estimate and peak
history all remain visible unchanged. -/
theorem C6_amended_read_failure (s : AppState) :
    (on_read_failure s).is_monitoring = false
    ∧ (on_read_failure s).serial_open = s.serial_open
    ∧ (on_read_failure s).ecg_data = s.ecg_data
    ∧ (on_read_failure s).heart_rate = s.heart_rate
    ∧ (on_read_failure s).last_peaks = s.last_peaks
    ∧ (on_read_failure s).peak_values = s.peak_values :=
  ⟨rfl, rfl, rfl, rfl, rfl, rfl⟩

/-- C7: a received line that does not parse as a number (`float(line)` raises
`ValueError`, caught with `pass`) is discarded: the whole state — Sample Buffer,
Peak History, Heart Rate Estimate — is exactly as before, and the session keeps
monitoring. -/
theorem C7_malformed_line_skipped (t : ℚ) (s : AppState) :
    ingest_line none t s = s
    ∧ (ingest_line none t s).is_monitoring = s.is_monitoring :=
  ⟨rfl, rfl⟩

theorem lastN_append_one (l : List ℚ) (v : ℚ) :
    appendSample (lastN max_data_points l) v = lastN max_data_points (l ++ [v]) := by
  unfold appendSample lastN max_data_points
  by_cases h : l.length ≤ 99
  · have e0 : l.length - 100 = 0 := by omega
    rw [e0, List.drop_zero,
        if_neg (by simp only [List.length_append, List.length_singleton]; omega),
        List.length_append, List.length_singleton,
        show l.length + 1 - 100 = 0 by omega, List.drop_zero]
  · have hd : (l.drop (l.length - 100)).length = 100 := by
      rw [List.length_drop]; omega
    rw [if_pos (by simp only [List.length_append, List.length_singleton, hd]; omega)]
    have e1 : (l.drop (l.length - 100) ++ [v]).length - 100 = 1 := by
      rw [List.length_append, List.length_singleton, hd]
    have e2 : (l ++ [v]).length - 100 = l.length + 1 - 100 := by
      rw [List.length_append, List.length_singleton]
    rw [e1, e2, List.drop_append_of_le_length (by omega),
        List.drop_append_of_le_length (by omega), List.drop_drop,
        show l.length - 100 + 1 = l.length + 1 - 100 from by omega]

theorem foldl_appendSample (inputs : List ℚ) : ∀ acc : List ℚ,
    inputs.foldl appendSample (lastN max_data_points acc)
      = lastN max_data_points (acc ++ inputs) := by
  induction inputs with
  | nil => intro acc; simp [List.foldl_nil]
  | cons v rest ih =>
      intro acc
      rw [List.foldl_cons, lastN_append_one, ih (acc ++ [v]), List.append_assoc,
          List.singleton_append]

theorem foldl_appendSample_nil (inputs : List ℚ) :
    inputs.foldl appendSample [] = lastN max_data_points inputs := by
  have h := foldl_appendSample inputs []
  rw [show lastN max_data_points ([] : List ℚ) = [] from rfl, List.nil_append] at h
  exact h

theorem foldl_pairs (inputs : List (ℚ × ℚ)) : ∀ b : List ℚ,
    inputs.foldl (fun b p => appendSample b p.1) b
      = (inputs.map Prod.fst).foldl appendSample b := by
  induction inputs with
  | nil => intro b; rfl
  | cons p rest ih => intro b; rw [List.foldl_cons, List.map_cons, List.foldl_cons, ih]

theorem processAll_ecg (inputs : List (ℚ × ℚ)) : ∀ s : AppState,
    (processAll inputs s).ecg_data
      = inputs.foldl (fun b p => appendSample b p.1) s.ecg_data := by
  induction inputs with
  | nil => intro s; rfl
  | cons p rest ih =>
      intro s
      show (processAll rest (process_sample p.1 p.2 s)).ecg_data = _
      rw [ih (process_sample p.1 p.2 s), process_sample_ecg, List.foldl_cons]

/-- C4: starting from a fresh session, for every sequence of appended samples the
Sample Buffer content equals the most recent min(total, 100) samples in arrival
order — obtained as one full resize to the trailing 100-element window — and its
length is min(total, 100), in particular never exceeding the capacity 100. -/
theorem C4_buffer_invariant (inputs : List (ℚ × ℚ)) (s : AppState) :
    (processAll inputs (connect_success s)).ecg_data
        = lastN max_data_points (inputs.map Prod.fst)
    ∧ (processAll inputs (connect_success s)).ecg_data.length
        = min inputs.length max_data_points
    ∧ (processAll inputs (connect_success s)).ecg_data.length ≤ max_data_points := by
  have h : (processAll inputs (connect_success s)).ecg_data
      = lastN max_data_points (inputs.map Prod.fst) := by
    rw [processAll_ecg, show (connect_success s).ecg_data = ([] : List ℚ) from rfl,
        foldl_pairs, foldl_appendSample_nil]
  refine ⟨h, ?_, ?_⟩ <;>
    rw [h] <;> unfold lastN max_data_points <;>
    rw [List.length_drop, List.length_map] <;> omega

/-- C5 counterexample: in the concrete run `cxInputs` the peak sample x (value 10)
arrives at t = 10, yet the timestamp recorded into the Peak Timestamp Queue is
10.99 = 11 − 0.01, derived from the arrival time 11 of the NEXT sample (the
detection step), not 9.99 = 10 − 0.01 as the claim states. -/
theorem C5_counterexample :
    (processAll cxInputs (connect_success initialState)).last_peaks = [1099/100]
    ∧ (1099/100 : ℚ) ≠ 10 - 1/100 := by
  constructor
  · norm_num [cxInputs, processAll, process_sample, connect_success, initialState,
      appendSample, max_data_points, lastN, detect_peaks_and_calculate_hr,
      peakCandidateOK, recentData, fromEnd, mean, variance, gtSqrtB, recordPeakAndHR,
      pushDeque, updateHR, retainedIntervals, pyInt]
  · norm_num

/-- C5 (amended): whenever the sample appended by `process_sample` confirms
x = ecg_data[-2] as a peak, the value recorded into the Peak Timestamp Queue is
the arrival timestamp `t` of the NEWEST sample (the detection timestamp) minus
0.01 s — not the arrival timestamp of x itself — and x's magnitude is recorded
into the Peak Magnitude Queue. -/
theorem C5_amended_timestamp (v t : ℚ) (s : AppState)
    (h10 : 10 ≤ (appendSample s.ecg_data v).length)
    (hp : peakCandidateOK (appendSample s.ecg_data v) = true) :
    (process_sample v t s).last_peaks = pushDeque 10 s.last_peaks (t - 1/100)
    ∧ (process_sample v t s).peak_values
        = pushDeque 30 s.peak_values (fromEnd (appendSample s.ecg_data v) 2) := by
  have hlt : ¬ ((appendSample s.ecg_data v).length < 10) := by omega
  have h3 : 3 ≤ (appendSample s.ecg_data v).length := by omega
  simp only [process_sample, detect_peaks_and_calculate_hr, recordPeakAndHR, hlt, h3,
    hp, if_true, if_false, ite_true, ite_false]
  exact ⟨trivial, trivial⟩

theorem C5_amended_timestamp_witness :
    (process_sample 0 11 tenState).last_peaks
        = pushDeque 10 tenState.last_peaks (11 - 1/100)
    ∧ (process_sample 0 11 tenState).peak_values
        = pushDeque 30 tenState.peak_values (fromEnd (appendSample tenState.ecg_data 0) 2) :=
  C5_amended_timestamp 0 11 tenState
    (by norm_num [tenState, appendSample, max_data_points, lastN])
    (by norm_num [tenState, appendSample, max_data_points, lastN, peakCandidateOK,
      recentData, fromEnd, mean, variance, gtSqrtB])

theorem detect_indep_peak_values (t : ℚ) (s : AppState) (pv : List ℚ) :
    (detect_peaks_and_calculate_hr t { s with peak_values := pv }).heart_rate
        = (detect_peaks_and_calculate_hr t s).heart_rate
    ∧ (detect_peaks_and_calculate_hr t { s with peak_values := pv }).last_peaks
        = (detect_peaks_and_calculate_hr t s).last_peaks := by
  simp only [detect_peaks_and_calculate_hr, recordPeakAndHR]
  split_ifs <;> exact ⟨rfl, rfl⟩

/-- C8 counterexample (proof of the claim's negation): there is NO pair of states
differing only in the Peak Magnitude Queue on which the detector's adaptive
statistics (mean and variance of the statistical window, hence threshold T and
margin M), its detection decision, or its published outputs differ — the queue,
despite the source comment, is never read by the thresholding code. -/
theorem C8_counterexample :
    ¬ ∃ (t : ℚ) (s : AppState) (pv : List ℚ),
        mean (recentData (({ s with peak_values := pv } : AppState).ecg_data))
            ≠ mean (recentData s.ecg_data)
        ∨ variance (recentData (({ s with peak_values := pv } : AppState).ecg_data))
            ≠ variance (recentData s.ecg_data)
        ∨ peakCandidateOK (({ s with peak_values := pv } : AppState).ecg_data)
            ≠ peakCandidateOK s.ecg_data
        ∨ (detect_peaks_and_calculate_hr t { s with peak_values := pv }).heart_rate
            ≠ (detect_peaks_and_calculate_hr t s).heart_rate
        ∨ (detect_peaks_and_calculate_hr t { s with peak_values := pv }).last_peaks
            ≠ (detect_peaks_and_calculate_hr t s).last_peaks := by
  rintro ⟨t, s, pv, h⟩
  rcases h with h | h | h | h | h
  · exact h rfl
  · exact h rfl
  · exact h rfl
  · exact h (detect_indep_peak_values t s pv).1
  · exact h (detect_indep_peak_values t s pv).2

/-- C8 (amended): the Peak Magnitude Queue is appended to on each detected peak
(capacity 30) but never read: the adaptive statistics and the detection decision
are computed solely from the Sample Buffer, so states differing only in the Peak
Magnitude Queue yield identical thresholds, decisions and published outputs. -/
theorem C8_amended_magnitude_queue_dead (t : ℚ) (s : AppState) (pv : List ℚ) :
    peakCandidateOK (({ s with peak_values := pv } : AppState).ecg_data)
        = peakCandidateOK s.ecg_data
    ∧ (detect_peaks_and_calculate_hr t { s with peak_values := pv }).heart_rate
        = (detect_peaks_and_calculate_hr t s).heart_rate
    ∧ (detect_peaks_and_calculate_hr t { s with peak_values := pv }).last_peaks
        = (detect_peaks_and_calculate_hr t s).last_peaks
    ∧ (10 ≤ s.ecg_data.length → peakCandidateOK s.ecg_data = true →
        (detect_peaks_and_calculate_hr t s).peak_values
          = pushDeque 30 s.peak_values (fromEnd s.ecg_data 2)) := by
  refine ⟨rfl, (detect_indep_peak_values t s pv).1, (detect_indep_peak_values t s pv).2, ?_⟩
  intro h10 hp
  unfold detect_peaks_and_calculate_hr
  rw [if_neg (by omega), if_pos (by omega), if_pos hp]
  rfl

theorem C8_amended_magnitude_queue_dead_witness :
    peakCandidateOK (({ elevenState with peak_values := [3] } : AppState).ecg_data)
        = peakCandidateOK elevenState.ecg_data
    ∧ (detect_peaks_and_calculate_hr 11 { elevenState with peak_values := [3] }).heart_rate
        = (detect_peaks_and_calculate_hr 11 elevenState).heart_rate
    ∧ (detect_peaks_and_calculate_hr 11 { elevenState with peak_values := [3] }).last_peaks
        = (detect_peaks_and_calculate_hr 11 elevenState).last_peaks
    ∧ (detect_peaks_and_calculate_hr 11 elevenState).peak_values
        = pushDeque 30 elevenState.peak_values (fromEnd elevenState.ecg_data 2) :=
  have h := C8_amended_magnitude_queue_dead 11 elevenState [3]
  ⟨h.1, h.2.1, h.2.2.1,
   h.2.2.2 (by decide)
     (by norm_num [elevenState, peakCandidateOK, recentData, lastN, fromEnd, mean,
       variance, gtSqrtB])⟩

theorem updateHR_cases (hr : ℤ) (peaks : List ℚ) :
    updateHR hr peaks = hr
    ∨ (30 ≤ updateHR hr peaks ∧ updateHR hr peaks ≤ 200) := by
  unfold updateHR
  split_ifs with h1 h2 h3
  · right; exact h3
  · left; rfl
  · left; rfl
  · left; rfl

theorem detect_hr_cases (t : ℚ) (s : AppState) :
    (detect_peaks_and_calculate_hr t s).heart_rate = s.heart_rate
    ∨ (30 ≤ (detect_peaks_and_calculate_hr t s).heart_rate
        ∧ (detect_peaks_and_calculate_hr t s).heart_rate ≤ 200) := by
  unfold detect_peaks_and_calculate_hr recordPeakAndHR
  split_ifs
  · left; rfl
  · exact updateHR_cases s.heart_rate (pushDeque 10 s.last_peaks (t - 1/100))
  · left; rfl
  · left; rfl

theorem step_hr_cases (op : Op) (s : AppState) :
    (step op s).heart_rate = s.heart_rate
    ∨ (30 ≤ (step op s).heart_rate ∧ (step op s).heart_rate ≤ 200) := by
  cases op with
  | connect => left; rfl
  | readFailure => left; rfl
  | disconnect => left; rfl
  | ingest p t =>
      cases p with
      | none => left; rfl
      | some v =>
          exact detect_hr_cases t { s with ecg_data := appendSample s.ecg_data v }

theorem run_inv (ops : List Op) : ∀ s : AppState,
    (s.heart_rate = 0 ∨ (30 ≤ s.heart_rate ∧ s.heart_rate ≤ 200)) →
    ((ops.foldl (fun s op => step op s) s).heart_rate = 0
      ∨ (30 ≤ (ops.foldl (fun s op => step op s) s).heart_rate
          ∧ (ops.foldl (fun s op => step op s) s).heart_rate ≤ 200)) := by
  induction ops with
  | nil => intro s h; exact h
  | cons op rest ih =>
      intro s h
      rw [List.foldl_cons]
      apply ih
      rcases step_hr_cases op s with he | hrange
      · rw [he]; exact h
      · right; exact hrange

/-- C10: at every state reachable from program start by any sequence of connect,
line-ingestion, read-failure and disconnect operations, the value returned by
`get_heart_rate` is either the sentinel 0 (unknown, set at program start) or an
integer in [30, 200]; moreover no operation ever takes a non-zero estimate back
to 0, so a valid estimate is never replaced by the sentinel. -/
theorem C10_heart_rate_range_invariant :
    (∀ ops : List Op, get_heart_rate (run ops) = 0
        ∨ (30 ≤ get_heart_rate (run ops) ∧ get_heart_rate (run ops) ≤ 200))
    ∧ (∀ (op : Op) (s : AppState), s.heart_rate ≠ 0 → (step op s).heart_rate ≠ 0) := by
  constructor
  · intro ops
    exact run_inv ops initialState (Or.inl rfl)
  · intro op s h
    rcases step_hr_cases op s with he | hrange
    · rw [he]; exact h
    · omega

theorem C10_heart_rate_range_invariant_witness :
    (step Op.connect failState).heart_rate ≠ 0 :=
  C10_heart_rate_range_invariant.2 Op.connect failState (by decide)
